import Mathlib

/-!
Verification of the grelmicro resilience core against its specification.

This file shallowly embeds the circuit breaker of
`grelmicro/resilience/circuitbreaker.py` and the table-name validation of
`grelmicro/backends/postgres/lock.py`, and proves or refutes the frozen
claims about them.

Modelling conventions:
- Python floats (monotonic clock readings, timeouts) are modelled as `Rat`.
- The wall clock (`datetime.now(UTC)`) and the monotonic clock
  (`time.monotonic()`) are both represented by the single time argument
  `now` passed to every operation: it stands for the instant at which the
  Python method runs, at which both clocks are read.
- A Python exception value is modelled by the class identifier of its type
  (`PyException.cls`); the `except ignore_errors` clause of `guard` is
  modelled as membership of that identifier in a list, standing for the
  isinstance test against the configured tuple of exception types.
- Mutation of `self` is modelled by explicit state passing: every method
  takes the pre-state and returns the post-state.
-/

namespace Grelmicro

/-- The five circuit breaker states, from enum `CircuitBreakerState`. -/
inductive CircuitBreakerState where
  | CLOSED
  | OPEN
  | HALF_OPEN
  | FORCED_OPEN
  | FORCED_CLOSED
deriving DecidableEq, Repr

/-- Information about a recorded error, from dataclass `ErrorInfo`:
a wall-clock timestamp and the exception value. -/
structure PyException where
  cls : Nat
deriving DecidableEq, Repr

/-- Dataclass `ErrorInfo` of the source: timestamp and exception. -/
structure ErrorInfo where
  time : Rat
  error : PyException
deriving DecidableEq, Repr

/-- Exception class `CircuitBreakerError` of the source. Its constructor
takes only the keyword argument `last_error_info`; these are all the data
the exception object stores. -/
structure CircuitBreakerError where
  last_error_info : Option ErrorInfo
deriving DecidableEq, Repr

/-- The full mutable and configuration state of a `CircuitBreaker`
instance, one field per attribute set in `CircuitBreaker.__init__`
(the logger is omitted: it carries no state the claims mention). -/
structure CircuitBreaker where
  name : String
  error_threshold : Nat
  success_threshold : Nat
  reset_timeout : Rat
  half_open_max_concurrency : Nat
  consecutive_counts_clear_interval : Rat
  state : CircuitBreakerState
  creation_time : Rat
  last_state_change_time : Rat
  consecutive_error_count : Nat
  consecutive_success_count : Nat
  total_error_count : Nat
  total_success_count : Nat
  last_error_info : Option ErrorInfo
  open_until_time : Rat
  active_calls : Nat
  last_consecutive_counts_cleared_at : Option Rat
  next_consecutive_counts_clear_time : Rat
deriving DecidableEq, Repr

/-- The keyword arguments of `CircuitBreaker.__init__`, with the
source's default values. -/
structure CircuitBreakerConfig where
  error_threshold : Nat := 5
  success_threshold : Nat := 2
  reset_timeout : Rat := 60
  half_open_max_concurrency : Nat := 1
  consecutive_counts_clear_interval : Rat := 0
deriving DecidableEq, Repr

/-- Body of `CircuitBreaker.__init__`: the initial state of a freshly
constructed instance at time `now`. -/
def CircuitBreaker.init (name : String) (cfg : CircuitBreakerConfig)
    (now : Rat) : CircuitBreaker :=
  { name := name
    error_threshold := cfg.error_threshold
    success_threshold := cfg.success_threshold
    reset_timeout := cfg.reset_timeout
    half_open_max_concurrency := cfg.half_open_max_concurrency
    consecutive_counts_clear_interval := cfg.consecutive_counts_clear_interval
    state := CircuitBreakerState.CLOSED
    creation_time := now
    last_state_change_time := now
    consecutive_error_count := 0
    consecutive_success_count := 0
    total_error_count := 0
    total_success_count := 0
    last_error_info := none
    open_until_time := 0
    active_calls := 0
    last_consecutive_counts_cleared_at :=
      if 0 < cfg.consecutive_counts_clear_interval then some now else none
    next_consecutive_counts_clear_time :=
      if 0 < cfg.consecutive_counts_clear_interval then
        now + cfg.consecutive_counts_clear_interval
      else 0 }

/-- Method `clear_consecutive_counts`: zero both consecutive counters,
record the wall-clock time, and reschedule the next periodic clear when
the interval is positive. -/
def CircuitBreaker.clear_consecutive_counts (cb : CircuitBreaker)
    (now : Rat) : CircuitBreaker :=
  { cb with
    consecutive_error_count := 0
    consecutive_success_count := 0
    last_consecutive_counts_cleared_at := some now
    next_consecutive_counts_clear_time :=
      if 0 < cb.consecutive_counts_clear_interval then
        now + cb.consecutive_counts_clear_interval
      else cb.next_consecutive_counts_clear_time }

/-- Method `_do_transition_to_state`: change the state field and stamp
`last_state_change_time`, but only when the state actually changes. -/
def CircuitBreaker.do_transition_to_state (cb : CircuitBreaker)
    (new_state : CircuitBreakerState) (now : Rat) : CircuitBreaker :=
  if cb.state ≠ new_state then
    { cb with state := new_state, last_state_change_time := now }
  else cb

/-- Method `_transition_to_state`: the state change plus its associated
actions (arming `open_until` on entering OPEN; clearing consecutive
counts on entering HALF_OPEN, or CLOSED from HALF_OPEN). -/
def CircuitBreaker.transition_to_state (cb : CircuitBreaker)
    (new_state : CircuitBreakerState) (now : Rat) : CircuitBreaker :=
  let previous_state := cb.state
  let cb1 := cb.do_transition_to_state new_state now
  if new_state = CircuitBreakerState.OPEN then
    { cb1 with open_until_time := now + cb1.reset_timeout }
  else if new_state = CircuitBreakerState.HALF_OPEN then
    cb1.clear_consecutive_counts now
  else if new_state = CircuitBreakerState.CLOSED ∧
      previous_state = CircuitBreakerState.HALF_OPEN then
    cb1.clear_consecutive_counts now
  else
    cb1

/-- Method `_is_call_permitted`: CLOSED permits; HALF_OPEN permits while
`active_calls` is below the concurrency cap; every other state
(OPEN, FORCED_OPEN, FORCED_CLOSED) falls through to `return False`. -/
def CircuitBreaker.is_call_permitted (cb : CircuitBreaker) : Bool :=
  if cb.state = CircuitBreakerState.CLOSED then
    true
  else if cb.state = CircuitBreakerState.HALF_OPEN then
    cb.active_calls < cb.half_open_max_concurrency
  else
    false

/-- Method `_refresh_state`: in CLOSED, a due periodic clear of the
consecutive counters; in OPEN, the timed transition to HALF_OPEN once
the monotonic clock reaches `open_until`; any other state is untouched. -/
def CircuitBreaker.refresh_state (cb : CircuitBreaker) (now : Rat) :
    CircuitBreaker :=
  if cb.state = CircuitBreakerState.CLOSED then
    if 0 < cb.consecutive_counts_clear_interval ∧
        cb.next_consecutive_counts_clear_time ≤ now then
      cb.clear_consecutive_counts now
    else cb
  else if cb.state = CircuitBreakerState.OPEN then
    if cb.open_until_time ≤ now then
      cb.transition_to_state CircuitBreakerState.HALF_OPEN now
    else cb
  else cb

/-- Method `_on_error`: bump the error counters, record `last_error`,
and re-open immediately when probing in HALF_OPEN. -/
def CircuitBreaker.on_error (cb : CircuitBreaker) (error : PyException)
    (now : Rat) : CircuitBreaker :=
  let cb1 := { cb with
    total_error_count := cb.total_error_count + 1
    consecutive_success_count := 0
    consecutive_error_count := cb.consecutive_error_count + 1
    last_error_info := some { time := now, error := error } }
  if cb1.state = CircuitBreakerState.HALF_OPEN then
    cb1.transition_to_state CircuitBreakerState.OPEN now
  else cb1

/-- Method `_on_success`: bump the success counters and zero the
consecutive error counter. -/
def CircuitBreaker.on_success (cb : CircuitBreaker) : CircuitBreaker :=
  { cb with
    total_success_count := cb.total_success_count + 1
    consecutive_error_count := 0
    consecutive_success_count := cb.consecutive_success_count + 1 }

/-- Method `_after_call_check`: in CLOSED, open once the consecutive
error count reaches `error_threshold`; in HALF_OPEN, close once the
consecutive success count reaches `success_threshold`. -/
def CircuitBreaker.after_call_check (cb : CircuitBreaker) (now : Rat) :
    CircuitBreaker :=
  if cb.state = CircuitBreakerState.CLOSED then
    if cb.error_threshold ≤ cb.consecutive_error_count then
      cb.transition_to_state CircuitBreakerState.OPEN now
    else cb
  else if cb.state = CircuitBreakerState.HALF_OPEN then
    if cb.success_threshold ≤ cb.consecutive_success_count then
      cb.transition_to_state CircuitBreakerState.CLOSED now
    else cb
  else cb

/-- Entry half of the `guard` context manager: refresh the state, then
either raise `CircuitBreakerError` (returned as `some err`, with the
state unchanged beyond the refresh) or book the active call. -/
def CircuitBreaker.guard_enter (cb : CircuitBreaker) (now : Rat) :
    CircuitBreaker × Option CircuitBreakerError :=
  let cb1 := cb.refresh_state now
  if cb1.is_call_permitted then
    ({ cb1 with active_calls := cb1.active_calls + 1 }, none)
  else
    (cb1, some { last_error_info := cb1.last_error_info })

/-- Outcome of the guarded code block: it either returns normally or
raises an exception. -/
inductive BodyOutcome where
  | ok
  | raises (error : PyException)
deriving DecidableEq, Repr

/-- Exit half of the `guard` context manager, run after the body: an
exception matching `ignore_errors` is re-raised with no accounting; any
other exception is recorded by `_on_error`; a normal return is recorded
by `_on_success`; the `finally` block then decrements `active_calls`
and runs `_after_call_check`. -/
def CircuitBreaker.guard_exit (cb : CircuitBreaker) (ignores : List Nat)
    (outcome : BodyOutcome) (now : Rat) : CircuitBreaker :=
  let cb1 :=
    match outcome with
    | BodyOutcome.ok => cb.on_success
    | BodyOutcome.raises e =>
        if ignores.contains e.cls then cb else cb.on_error e now
  let cb2 := { cb1 with active_calls := cb1.active_calls - 1 }
  cb2.after_call_check now

/-- What a whole guarded call delivers to the caller: denial at entry,
normal completion, or the body's exception re-raised. -/
inductive GuardResult where
  | denied (err : CircuitBreakerError)
  | completed
  | reraised (error : PyException)
deriving DecidableEq, Repr

/-- One whole pass through `async with cb.guard(ignore_errors=...)`:
entry at monotonic time `t_enter`, the body producing `outcome`, exit at
time `t_exit`. -/
def CircuitBreaker.guard_call (cb : CircuitBreaker) (ignores : List Nat)
    (outcome : BodyOutcome) (t_enter t_exit : Rat) :
    CircuitBreaker × GuardResult :=
  match cb.guard_enter t_enter with
  | (cb1, some err) => (cb1, GuardResult.denied err)
  | (cb1, none) =>
      let cb2 := cb1.guard_exit ignores outcome t_exit
      match outcome with
      | BodyOutcome.ok => (cb2, GuardResult.completed)
      | BodyOutcome.raises e => (cb2, GuardResult.reraised e)

/-- Property `current_state`: refresh, then read the state field. The
refreshed instance is returned alongside, mirroring the mutation. -/
def CircuitBreaker.current_state (cb : CircuitBreaker) (now : Rat) :
    CircuitBreaker × CircuitBreakerState :=
  let cb1 := cb.refresh_state now
  (cb1, cb1.state)

/-- Snapshot dataclass `CircuitBreakerStatistics` of the source. -/
structure CircuitBreakerStatistics where
  name : String
  state : CircuitBreakerState
  last_state_change_time : Rat
  active_calls : Nat
  total_error_count : Nat
  total_success_count : Nat
  consecutive_error_count : Nat
  consecutive_success_count : Nat
  last_error_info : Option ErrorInfo
  last_consecutive_counts_cleared_at : Option Rat
  creation_time : Rat
deriving DecidableEq, Repr

/-- Method `statistics`: read `current_state` (refreshing), then
snapshot every field. -/
def CircuitBreaker.statistics (cb : CircuitBreaker) (now : Rat) :
    CircuitBreaker × CircuitBreakerStatistics :=
  let cb1 := (cb.current_state now).1
  (cb1,
    { name := cb1.name
      state := cb1.state
      last_state_change_time := cb1.last_state_change_time
      active_calls := cb1.active_calls
      total_error_count := cb1.total_error_count
      total_success_count := cb1.total_success_count
      consecutive_error_count := cb1.consecutive_error_count
      consecutive_success_count := cb1.consecutive_success_count
      last_error_info := cb1.last_error_info
      last_consecutive_counts_cleared_at :=
        cb1.last_consecutive_counts_cleared_at
      creation_time := cb1.creation_time })

/-- Method `reset`: back to CLOSED, zero the total counters, drop
`last_error`, disarm `open_until`, and clear the consecutive counters;
the comment in the source records that `active_calls` is deliberately
not touched. -/
def CircuitBreaker.reset (cb : CircuitBreaker) (now : Rat) :
    CircuitBreaker :=
  let cb1 := cb.do_transition_to_state CircuitBreakerState.CLOSED now
  let cb2 := { cb1 with
    total_error_count := 0
    total_success_count := 0
    last_error_info := none
    open_until_time := 0 }
  cb2.clear_consecutive_counts now

/-- Method `force_open`: jump to FORCED_OPEN, arm `open_until` with the
given duration (defaulting to `reset_timeout`), clear consecutive
counters. -/
def CircuitBreaker.force_open (cb : CircuitBreaker)
    (open_duration : Option Rat) (now : Rat) : CircuitBreaker :=
  let cb1 := cb.do_transition_to_state CircuitBreakerState.FORCED_OPEN now
  let cb2 := { cb1 with
    open_until_time := now + open_duration.getD cb1.reset_timeout }
  cb2.clear_consecutive_counts now

/-- Method `force_closed`: jump to FORCED_CLOSED and clear consecutive
counters. -/
def CircuitBreaker.force_closed (cb : CircuitBreaker) (now : Rat) :
    CircuitBreaker :=
  let cb1 := cb.do_transition_to_state CircuitBreakerState.FORCED_CLOSED now
  cb1.clear_consecutive_counts now

/-- Method `force_half_open`: jump to HALF_OPEN and clear consecutive
counters. -/
def CircuitBreaker.force_half_open (cb : CircuitBreaker) (now : Rat) :
    CircuitBreaker :=
  let cb1 := cb.do_transition_to_state CircuitBreakerState.HALF_OPEN now
  cb1.clear_consecutive_counts now

/-- A run of consecutive error-raising guarded calls, all at monotonic
time `t`, with no exception ignored: the shape of the opening scenario. -/
def CircuitBreaker.iterate_error_calls (cb : CircuitBreaker)
    (e : PyException) (t : Rat) : Nat → CircuitBreaker
  | 0 => cb
  | n + 1 =>
      ((cb.iterate_error_calls e t n).guard_call []
        (BodyOutcome.raises e) t t).1

/-- The class attribute `CircuitBreakerRegistry._instances`, a Python
dict from name to instance, modelled as an association list in
insertion order. -/
abbrev Registry : Type := List (String × CircuitBreaker)

/-- Classmethod `CircuitBreakerRegistry.get`: dict lookup. -/
def Registry.get (reg : Registry) (name : String) :
    Option CircuitBreaker :=
  (List.find? (fun p => p.1 = name) reg).map Prod.snd

/-- Classmethod `CircuitBreakerRegistry.register`: dict assignment at
key `circuit_breaker.name` (overwrite when present, insert at the end
otherwise). -/
def Registry.register (reg : Registry) (cb : CircuitBreaker) : Registry :=
  if List.any reg (fun p => p.1 = cb.name) then
    List.map (fun p => if p.1 = cb.name then (p.1, cb) else p) reg
  else
    reg ++ [(cb.name, cb)]

/-- Metaclass method `_CircuitBreakerMeta.__call__`: return the existing
instance for `name` untouched (ignoring the new keyword arguments), or
construct, register and return a fresh one. -/
def Registry.meta_call (reg : Registry) (name : String)
    (cfg : CircuitBreakerConfig) (now : Rat) : CircuitBreaker × Registry :=
  match reg.get name with
  | some existing => (existing, reg)
  | none =>
      let instance_ := CircuitBreaker.init name cfg now
      (instance_, reg.register instance_)

/-- Unicode XID_Start restricted to code points up to U+00FF, the range
every input in this development lies in: ASCII letters, and the Latin-1
letters U+00AA, U+00B5, U+00BA, U+00C0 to U+00D6, U+00D8 to U+00F6 and
U+00F8 to U+00FF, exactly the XID_Start characters of that range in the
Unicode character database that `str.isidentifier` consults. Code
points above U+00FF are not classified. -/
def isXidStartLatin1 (c : Char) : Bool :=
  let n := c.toNat
  (65 ≤ n && n ≤ 90) || (97 ≤ n && n ≤ 122) ||
    n = 170 || n = 181 || n = 186 ||
    (192 ≤ n && n ≤ 214) || (216 ≤ n && n ≤ 246) || (248 ≤ n && n ≤ 255)

/-- Unicode XID_Continue restricted to code points up to U+00FF: the
XID_Start characters plus the ASCII digits, the low line U+005F and the
middle dot U+00B7. -/
def isXidContinueLatin1 (c : Char) : Bool :=
  isXidStartLatin1 c ||
    (let n := c.toNat
     (48 ≤ n && n ≤ 57) || n = 95 || n = 183)

/-- The builtin `str.isidentifier` used by `PostgresLockBackend.__init__`
(CPython: nonempty, first character XID_Start or the low line, remaining
characters XID_Continue), on strings over code points up to U+00FF. -/
def pyIsIdentifier (s : String) : Bool :=
  match s.data with
  | [] => false
  | c :: cs =>
      (isXidStartLatin1 c || c.toNat = 95) && cs.all isXidContinueLatin1

/-- An ASCII letter, for the spec side of the table-name comparison. -/
def isAsciiLetter (c : Char) : Bool :=
  (65 ≤ c.toNat && c.toNat ≤ 90) || (97 ≤ c.toNat && c.toNat ≤ 122)

/-- Head character of the spec's simple SQL identifier grammar: an ASCII
letter or the underscore. -/
def isSqlIdentStart (c : Char) : Bool :=
  isAsciiLetter c || c.toNat = 95

/-- Tail character of the spec's simple SQL identifier grammar: an ASCII
letter, an ASCII digit, or the underscore. -/
def isSqlIdentContinue (c : Char) : Bool :=
  isAsciiLetter c || (48 ≤ c.toNat && c.toNat ≤ 57) || c.toNat = 95

/-- The spec side of the refinement comparison for the table-name check,
from the spec words: a simple SQL identifier is an ASCII letter or
underscore followed by ASCII letters, digits, and underscores. -/
def isSimpleSqlIdentifier (s : String) : Bool :=
  match s.data with
  | [] => false
  | c :: cs => isSqlIdentStart c && cs.all isSqlIdentContinue

/-- The data a `PostgresLockBackend` holds after construction that the
claims mention (the pool, the formatted SQL strings and the registry
side effect are omitted: they carry no state the claims depend on). -/
structure PostgresLockBackend where
  url : String
  table_name : String
deriving DecidableEq, Repr

/-- `PostgresLockBackend.__init__`: raise `ValueError` (returned as
`Except.error`) when `table_name.isidentifier()` is false, otherwise
store the URL and the table name. -/
def PostgresLockBackend.make (url : String) (table_name : String) :
    Except String PostgresLockBackend :=
  if !pyIsIdentifier table_name then
    Except.error "Table name is not a valid identifier."
  else
    Except.ok { url := url, table_name := table_name }

/-! Helper lemmas shared by the claim theorems. -/

/-- Refreshing is the identity in FORCED_OPEN. -/
lemma refresh_state_forced_open (cb : CircuitBreaker) (now : Rat)
    (h : cb.state = CircuitBreakerState.FORCED_OPEN) :
    cb.refresh_state now = cb := by
  simp [CircuitBreaker.refresh_state, h]

/-- Refreshing is the identity in FORCED_CLOSED. -/
lemma refresh_state_forced_closed (cb : CircuitBreaker) (now : Rat)
    (h : cb.state = CircuitBreakerState.FORCED_CLOSED) :
    cb.refresh_state now = cb := by
  simp [CircuitBreaker.refresh_state, h]

/-- The target of `_transition_to_state` is always reached: none of the
associated actions changes the state field again. -/
lemma transition_to_state_state (cb : CircuitBreaker)
    (s : CircuitBreakerState) (now : Rat) :
    (cb.transition_to_state s now).state = s := by
  simp only [CircuitBreaker.transition_to_state,
    CircuitBreaker.do_transition_to_state,
    CircuitBreaker.clear_consecutive_counts]
  split_ifs <;> simp_all

/-- Refreshing never changes `last_error_info`. -/
lemma refresh_state_last_error (cb : CircuitBreaker) (now : Rat) :
    (cb.refresh_state now).last_error_info = cb.last_error_info := by
  simp only [CircuitBreaker.refresh_state,
    CircuitBreaker.transition_to_state,
    CircuitBreaker.do_transition_to_state,
    CircuitBreaker.clear_consecutive_counts]
  split_ifs <;> simp_all

/-- After a refresh at a time past `open_until`, the state field is
never OPEN: OPEN itself is promoted to HALF_OPEN and no other state is
ever turned into OPEN by the refresh. -/
lemma refresh_state_not_open (cb : CircuitBreaker) (now : Rat)
    (h : cb.open_until_time ≤ now) :
    (cb.refresh_state now).state ≠ CircuitBreakerState.OPEN := by
  by_cases hc : cb.state = CircuitBreakerState.CLOSED
  · simp only [CircuitBreaker.refresh_state, hc,
      CircuitBreaker.clear_consecutive_counts]
    split_ifs <;> simp [hc]
  · by_cases ho : cb.state = CircuitBreakerState.OPEN
    · simp [CircuitBreaker.refresh_state, ho, h, transition_to_state_state]
    · simp only [CircuitBreaker.refresh_state, hc, ho, if_false]
      cases hs : cb.state <;> simp_all

/-- Refreshing is the identity in CLOSED when the periodic clear
interval is not positive (the default configuration). -/
lemma refresh_state_closed_no_clear (cb : CircuitBreaker) (now : Rat)
    (h : cb.state = CircuitBreakerState.CLOSED)
    (hint : cb.consecutive_counts_clear_interval ≤ 0) :
    cb.refresh_state now = cb := by
  have hnotlt : ¬ (0 < cb.consecutive_counts_clear_interval) :=
    not_lt.mpr hint
  simp [CircuitBreaker.refresh_state, h, hnotlt]

/-- Entry leaves the state field exactly as the refresh left it: booking
the active call does not touch the state. -/
lemma guard_enter_state (cb : CircuitBreaker) (now : Rat) :
    (cb.guard_enter now).1.state = (cb.refresh_state now).state := by
  by_cases hp : (cb.refresh_state now).is_call_permitted <;>
    simp [CircuitBreaker.guard_enter, hp]

/-- force_open always lands in FORCED_OPEN. -/
lemma force_open_state (cb : CircuitBreaker) (d : Option Rat) (now : Rat) :
    (cb.force_open d now).state = CircuitBreakerState.FORCED_OPEN := by
  simp only [CircuitBreaker.force_open, CircuitBreaker.do_transition_to_state,
    CircuitBreaker.clear_consecutive_counts]
  split_ifs <;> simp_all

/-- A breaker fixed by every refresh stays fixed under any sequence of
refreshes. -/
lemma refresh_fixed_foldl (b : CircuitBreaker)
    (h : ∀ t, b.refresh_state t = b) (ts : List Rat) :
    ts.foldl (fun b t => b.refresh_state t) b = b := by
  induction ts with
  | nil => rfl
  | cons t ts ih => simpa [h t] using ih

/-! Claim theorems. -/

/-- C1: the claim says FORCED_CLOSED always permits guard entry, and the
docstring of `CircuitBreakerState.FORCED_CLOSED` agrees, but
`_is_call_permitted` falls through to `return False` for FORCED_CLOSED
(the refresh does not handle forced states either), so `guard` raises
`CircuitBreakerError` and leaves the breaker unchanged. This theorem
evaluates the code at the failing configuration. -/
theorem forced_closed_guard_denied (cb : CircuitBreaker) (now : Rat)
    (h : cb.state = CircuitBreakerState.FORCED_CLOSED) :
    cb.is_call_permitted = false ∧
    (cb.guard_enter now).2.isSome = true ∧
    (cb.guard_enter now).1 = cb := by
  have hperm : cb.is_call_permitted = false := by
    simp [CircuitBreaker.is_call_permitted, h]
  refine ⟨hperm, ?_, ?_⟩ <;>
    simp [CircuitBreaker.guard_enter, refresh_state_forced_closed cb now h,
      hperm]

/-- C1 witness: a concrete breaker forced closed is denied entry. -/
theorem forced_closed_guard_denied_witness :
    ((CircuitBreaker.init "test" {} 0).force_closed 0).state =
      CircuitBreakerState.FORCED_CLOSED ∧
    (((CircuitBreaker.init "test" {} 0).force_closed 0).is_call_permitted =
        false ∧
      ((((CircuitBreaker.init "test" {} 0).force_closed 0).guard_enter
          1).2).isSome = true ∧
      (((CircuitBreaker.init "test" {} 0).force_closed 0).guard_enter 1).1 =
        (CircuitBreaker.init "test" {} 0).force_closed 0) :=
  ⟨by decide, forced_closed_guard_denied _ 1 (by decide)⟩

/-- C2 counterexample: with a freshly constructed breaker and the raised
exception's type listed in `ignore_errors`, the guarded call re-raises
the exception but `total_success_count` is not incremented, contrary to
the claim that an ignored exception counts as a success. -/
theorem ignored_error_not_success_cex :
    ((CircuitBreaker.init "cb" {} 0).guard_call [7]
        (BodyOutcome.raises { cls := 7 }) 0 0).2 =
      GuardResult.reraised { cls := 7 } ∧
    ((CircuitBreaker.init "cb" {} 0).guard_call [7]
        (BodyOutcome.raises { cls := 7 }) 0 0).1.total_success_count ≠
      (CircuitBreaker.init "cb" {} 0).total_success_count + 1 := by decide

/-- C2 amended: a guarded call that raises a listed exception re-raises
it unchanged and counts as neither success nor error: every field of the
breaker, total_success_count and last_error included, is exactly as
before the call (stated for a CLOSED breaker below its error threshold
with the periodic clear disabled, the default). -/
theorem ignored_error_counts_as_neither (cb : CircuitBreaker)
    (ignores : List Nat) (e : PyException) (t1 t2 : Rat)
    (hstate : cb.state = CircuitBreakerState.CLOSED)
    (hint : cb.consecutive_counts_clear_interval ≤ 0)
    (herr : cb.consecutive_error_count < cb.error_threshold)
    (hmem : ignores.contains e.cls = true) :
    cb.guard_call ignores (BodyOutcome.raises e) t1 t2 =
      (cb, GuardResult.reraised e) := by
  have hrefresh : cb.refresh_state t1 = cb :=
    refresh_state_closed_no_clear cb t1 hstate hint
  have hperm : cb.is_call_permitted = true := by
    simp [CircuitBreaker.is_call_permitted, hstate]
  have henter : cb.guard_enter t1 =
      ({ cb with active_calls := cb.active_calls + 1 }, none) := by
    simp [CircuitBreaker.guard_enter, hrefresh, hperm]
  have hexit :
      ({ cb with active_calls := cb.active_calls + 1 } :
        CircuitBreaker).guard_exit ignores (BodyOutcome.raises e) t2 = cb := by
    simp only [CircuitBreaker.guard_exit, hmem, if_true,
      Nat.add_sub_cancel]
    show CircuitBreaker.after_call_check cb t2 = cb
    simp [CircuitBreaker.after_call_check, hstate, not_le.mpr herr]
  simp [CircuitBreaker.guard_call, henter, hexit]

/-- C2 amended witness: the concrete ignored-error call from the
counterexample leaves the breaker bit-for-bit unchanged. -/
theorem ignored_error_counts_as_neither_witness :
    ((CircuitBreaker.init "cb" {} 0).state = CircuitBreakerState.CLOSED ∧
      (CircuitBreaker.init "cb" {} 0).consecutive_counts_clear_interval ≤ 0 ∧
      (CircuitBreaker.init "cb" {} 0).consecutive_error_count <
        (CircuitBreaker.init "cb" {} 0).error_threshold ∧
      ([7] : List Nat).contains 7 = true) ∧
    (CircuitBreaker.init "cb" {} 0).guard_call [7]
        (BodyOutcome.raises { cls := 7 }) 0 0 =
      (CircuitBreaker.init "cb" {} 0, GuardResult.reraised { cls := 7 }) :=
  ⟨⟨by decide, by decide, by decide, by decide⟩,
    ignored_error_counts_as_neither _ _ _ _ _ (by decide) (by decide)
      (by decide) (by decide)⟩

/-- C3 counterexample: with error_threshold = 1, a single guarded error
call transitions CLOSED to OPEN yet leaves consecutive_error_count = 1,
so entering OPEN does not clear the consecutive counters. -/
theorem transition_keeps_consecutive_cex :
    ((CircuitBreaker.init "cb" { error_threshold := 1 } 0).iterate_error_calls
        { cls := 7 } 2 1).state = CircuitBreakerState.OPEN ∧
    ((CircuitBreaker.init "cb" { error_threshold := 1 } 0).iterate_error_calls
        { cls := 7 } 2 1).consecutive_error_count = 1 := by decide

/-- C3 amended: entering HALF_OPEN clears both consecutive counters, as
does entering CLOSED from HALF_OPEN; the explicit force_open,
force_closed, force_half_open and reset operations also clear them; but
a transition entering OPEN leaves both consecutive counters unchanged. -/
theorem transition_consecutive_counts_amended (cb : CircuitBreaker)
    (s : CircuitBreakerState) (d : Option Rat) (now : Rat) :
    (s = CircuitBreakerState.HALF_OPEN →
      (cb.transition_to_state s now).consecutive_error_count = 0 ∧
      (cb.transition_to_state s now).consecutive_success_count = 0) ∧
    ((s = CircuitBreakerState.CLOSED ∧
        cb.state = CircuitBreakerState.HALF_OPEN) →
      (cb.transition_to_state s now).consecutive_error_count = 0 ∧
      (cb.transition_to_state s now).consecutive_success_count = 0) ∧
    (s = CircuitBreakerState.OPEN →
      (cb.transition_to_state s now).consecutive_error_count =
        cb.consecutive_error_count ∧
      (cb.transition_to_state s now).consecutive_success_count =
        cb.consecutive_success_count) ∧
    ((cb.force_open d now).consecutive_error_count = 0 ∧
      (cb.force_open d now).consecutive_success_count = 0) ∧
    ((cb.force_closed now).consecutive_error_count = 0 ∧
      (cb.force_closed now).consecutive_success_count = 0) ∧
    ((cb.force_half_open now).consecutive_error_count = 0 ∧
      (cb.force_half_open now).consecutive_success_count = 0) ∧
    ((cb.reset now).consecutive_error_count = 0 ∧
      (cb.reset now).consecutive_success_count = 0) := by
  refine ⟨?_, ?_, ?_, ?_, ?_, ?_, ?_⟩ <;>
    simp only [CircuitBreaker.transition_to_state,
      CircuitBreaker.do_transition_to_state,
      CircuitBreaker.clear_consecutive_counts, CircuitBreaker.force_open,
      CircuitBreaker.force_closed, CircuitBreaker.force_half_open,
      CircuitBreaker.reset] <;>
    intros <;> (try split_ifs) <;> simp_all

/-- C3 amended witness: the clearing conjuncts applied to a concrete
breaker in HALF_OPEN transitioning to CLOSED. -/
theorem transition_consecutive_counts_amended_witness :
    (((CircuitBreaker.init "cb" {} 0).transition_to_state
        CircuitBreakerState.HALF_OPEN 1).consecutive_error_count = 0 ∧
      ((CircuitBreaker.init "cb" {} 0).transition_to_state
        CircuitBreakerState.HALF_OPEN 1).consecutive_success_count = 0) :=
  (transition_consecutive_counts_amended (CircuitBreaker.init "cb" {} 0)
    CircuitBreakerState.HALF_OPEN none 1).1 (by decide)

/-- C4 counterexample: two breakers differing only in their name yield
identical CircuitBreakerError values on denied entry, so the raised
error cannot carry the breaker's name (the source's CircuitBreakerError
stores only last_error_info). -/
theorem circuit_breaker_error_no_name_cex :
    ((((CircuitBreaker.init "a" {} 0).force_open none 0).guard_enter 1).2 =
      (((CircuitBreaker.init "b" {} 0).force_open none 0).guard_enter 1).2) ∧
    ((((CircuitBreaker.init "a" {} 0).force_open none 0).guard_enter
        1).2).isSome = true ∧
    ((CircuitBreaker.init "a" {} 0).force_open none 0).name ≠
      ((CircuitBreaker.init "b" {} 0).force_open none 0).name := by decide

/-- C4 amended: whenever guard entry is denied, the raised
CircuitBreakerError carries a snapshot of the breaker's last_error
(which may be null); it does not carry the breaker's name. -/
theorem denied_guard_error_carries_last_error (cb : CircuitBreaker)
    (now : Rat) (err : CircuitBreakerError)
    (h : (cb.guard_enter now).2 = some err) :
    err.last_error_info = cb.last_error_info := by
  by_cases hp : (cb.refresh_state now).is_call_permitted
  · simp [CircuitBreaker.guard_enter, hp] at h
  · simp only [CircuitBreaker.guard_enter, hp, Bool.false_eq_true,
      if_false, Option.some.injEq] at h
    rw [← h, ← refresh_state_last_error cb now]

/-- C4 amended witness: the concrete denial from the counterexample
carries the (null) last_error snapshot. -/
theorem denied_guard_error_carries_last_error_witness :
    ((((CircuitBreaker.init "w" {} 0).force_open none 0).guard_enter 1).2 =
      some { last_error_info := none }) ∧
    (CircuitBreakerError.mk none).last_error_info =
      ((CircuitBreaker.init "w" {} 0).force_open none 0).last_error_info :=
  ⟨by decide,
    denied_guard_error_carries_last_error _ 1 _ (by decide)⟩

/-- C6: in OPEN, a refresh promotes to HALF_OPEN exactly when the
monotonic clock has reached open_until (and stays OPEN exactly when it
has not); and at any observation point (current_state, statistics, or
guard entry, each of which refreshes first) the breaker is never seen
in OPEN once the clock has reached open_until. -/
theorem open_until_governs_half_open (cb : CircuitBreaker) (now : Rat) :
    (cb.state = CircuitBreakerState.OPEN →
      (((cb.refresh_state now).state = CircuitBreakerState.HALF_OPEN) ↔
        cb.open_until_time ≤ now) ∧
      (((cb.refresh_state now).state = CircuitBreakerState.OPEN) ↔
        now < cb.open_until_time)) ∧
    (cb.open_until_time ≤ now →
      ((cb.current_state now).2 ≠ CircuitBreakerState.OPEN ∧
        ((cb.statistics now).2).state ≠ CircuitBreakerState.OPEN ∧
        ((cb.guard_enter now).1).state ≠ CircuitBreakerState.OPEN)) := by
  constructor
  · intro ho
    by_cases ht : cb.open_until_time ≤ now
    · have : (cb.refresh_state now).state = CircuitBreakerState.HALF_OPEN := by
        simp [CircuitBreaker.refresh_state, ho, ht, transition_to_state_state]
      rw [this]
      simp [ht, not_lt.mpr ht]
    · have : cb.refresh_state now = cb := by
        simp [CircuitBreaker.refresh_state, ho, ht]
      rw [this, ho]
      simp [ht, not_le.mp ht]
  · intro ht
    have hno := refresh_state_not_open cb now ht
    refine ⟨?_, ?_, ?_⟩
    · simpa [CircuitBreaker.current_state] using hno
    · simpa [CircuitBreaker.statistics, CircuitBreaker.current_state]
        using hno
    · simpa [guard_enter_state] using hno

/-- C6 witness: a breaker opened at time 0 with the default 60 second
reset timeout, observed at time 60. -/
theorem open_until_governs_half_open_witness :
    ((((CircuitBreaker.init "o" {} 0).transition_to_state
        CircuitBreakerState.OPEN 0).refresh_state 60).state =
      CircuitBreakerState.HALF_OPEN ↔
      ((CircuitBreaker.init "o" {} 0).transition_to_state
        CircuitBreakerState.OPEN 0).open_until_time ≤ 60) ∧
    (((CircuitBreaker.init "o" {} 0).transition_to_state
        CircuitBreakerState.OPEN 0).current_state 60).2 ≠
      CircuitBreakerState.OPEN := by
  have h := open_until_governs_half_open
    ((CircuitBreaker.init "o" {} 0).transition_to_state
      CircuitBreakerState.OPEN 0) 60
  have ht : ((CircuitBreaker.init "o" {} 0).transition_to_state
      CircuitBreakerState.OPEN 0).open_until_time ≤ 60 := by
    simp [CircuitBreaker.transition_to_state,
      CircuitBreaker.do_transition_to_state,
      CircuitBreaker.clear_consecutive_counts, CircuitBreaker.init]
  exact ⟨(h.1 (by decide)).1, (h.2 ht).1⟩

/-- C9: reset zeroes both total counters, clears last_error, sets the
state to CLOSED with both consecutive counters zero, and leaves
active_calls exactly as it was. -/
theorem reset_frame (cb : CircuitBreaker) (now : Rat) :
    (cb.reset now).active_calls = cb.active_calls ∧
    (cb.reset now).total_error_count = 0 ∧
    (cb.reset now).total_success_count = 0 ∧
    (cb.reset now).last_error_info = none ∧
    (cb.reset now).state = CircuitBreakerState.CLOSED ∧
    (cb.reset now).consecutive_error_count = 0 ∧
    (cb.reset now).consecutive_success_count = 0 := by
  simp only [CircuitBreaker.reset, CircuitBreaker.do_transition_to_state,
    CircuitBreaker.clear_consecutive_counts]
  split_ifs <;> simp_all

/-- C10: force_open lands in FORCED_OPEN regardless of the duration
argument; every later refresh (run by permission checks and metrics
reads) leaves the instance completely unchanged, any sequence of
refreshes still observes FORCED_OPEN, current_state reads FORCED_OPEN,
guard entry is denied without modifying the breaker, and the state does
not depend on the duration argument. -/
theorem force_open_sticky (cb : CircuitBreaker) (d d2 : Option Rat)
    (now : Rat) :
    (cb.force_open d now).state = CircuitBreakerState.FORCED_OPEN ∧
    (∀ t, (cb.force_open d now).refresh_state t = cb.force_open d now) ∧
    (∀ ts : List Rat,
      (ts.foldl (fun b t => b.refresh_state t)
        (cb.force_open d now)).state = CircuitBreakerState.FORCED_OPEN) ∧
    (∀ t, ((cb.force_open d now).current_state t).2 =
      CircuitBreakerState.FORCED_OPEN) ∧
    (∀ t, ((cb.force_open d now).guard_enter t).1 = cb.force_open d now ∧
      ((cb.force_open d now).guard_enter t).2.isSome = true) ∧
    (cb.force_open d2 now).state = (cb.force_open d now).state := by
  have hstate := force_open_state cb d now
  have hrefresh : ∀ t,
      (cb.force_open d now).refresh_state t = cb.force_open d now :=
    fun t => refresh_state_forced_open _ t hstate
  have hperm : (cb.force_open d now).is_call_permitted = false := by
    simp [CircuitBreaker.is_call_permitted, hstate]
  refine ⟨hstate, hrefresh, ?_, ?_, ?_, ?_⟩
  · intro ts
    rw [refresh_fixed_foldl _ hrefresh]
    exact hstate
  · intro t
    simp [CircuitBreaker.current_state, hrefresh t, hstate]
  · intro t
    constructor <;> simp [CircuitBreaker.guard_enter, hrefresh t, hperm]
  · rw [hstate, force_open_state]

/-! Lemmas for the opening scenario (C5). -/

/-- A non-ignored error call from CLOSED with the periodic clear
disabled: the whole guarded call amounts to the error bookkeeping
followed by the after-call check. -/
lemma guard_error_call_eq (cb : CircuitBreaker) (e : PyException)
    (t : Rat) (hstate : cb.state = CircuitBreakerState.CLOSED)
    (hint : cb.consecutive_counts_clear_interval ≤ 0) :
    cb.guard_call [] (BodyOutcome.raises e) t t =
      (CircuitBreaker.after_call_check
        { cb with
          total_error_count := cb.total_error_count + 1
          consecutive_success_count := 0
          consecutive_error_count := cb.consecutive_error_count + 1
          last_error_info := some { time := t, error := e } } t,
        GuardResult.reraised e) := by
  have hrefresh := refresh_state_closed_no_clear cb t hstate hint
  have hperm : cb.is_call_permitted = true := by
    simp [CircuitBreaker.is_call_permitted, hstate]
  have henter : cb.guard_enter t =
      ({ cb with active_calls := cb.active_calls + 1 }, none) := by
    simp [CircuitBreaker.guard_enter, hrefresh, hperm]
  simp only [CircuitBreaker.guard_call, henter]
  simp [CircuitBreaker.guard_exit, CircuitBreaker.on_error, hstate]

/-- Below the threshold, the error call leaves the breaker CLOSED with
the counters bumped. -/
lemma guard_error_step_lt (cb : CircuitBreaker) (e : PyException)
    (t : Rat) (hstate : cb.state = CircuitBreakerState.CLOSED)
    (hint : cb.consecutive_counts_clear_interval ≤ 0)
    (hlt : cb.consecutive_error_count + 1 < cb.error_threshold) :
    (cb.guard_call [] (BodyOutcome.raises e) t t).1 =
      { cb with
        total_error_count := cb.total_error_count + 1
        consecutive_success_count := 0
        consecutive_error_count := cb.consecutive_error_count + 1
        last_error_info := some { time := t, error := e } } := by
  rw [guard_error_call_eq cb e t hstate hint]
  simp [CircuitBreaker.after_call_check, hstate, not_le.mpr hlt]

/-- At the threshold, the error call opens the circuit and arms
open_until with the reset timeout; the consecutive error counter is not
cleared by the transition. -/
lemma guard_error_step_ge (cb : CircuitBreaker) (e : PyException)
    (t : Rat) (hstate : cb.state = CircuitBreakerState.CLOSED)
    (hint : cb.consecutive_counts_clear_interval ≤ 0)
    (hge : cb.error_threshold ≤ cb.consecutive_error_count + 1) :
    (cb.guard_call [] (BodyOutcome.raises e) t t).1 =
      { cb with
        state := CircuitBreakerState.OPEN
        last_state_change_time := t
        open_until_time := t + cb.reset_timeout
        total_error_count := cb.total_error_count + 1
        consecutive_success_count := 0
        consecutive_error_count := cb.consecutive_error_count + 1
        last_error_info := some { time := t, error := e } } := by
  rw [guard_error_call_eq cb e t hstate hint]
  simp [CircuitBreaker.after_call_check, hstate, hge,
    CircuitBreaker.transition_to_state, CircuitBreaker.do_transition_to_state]

/-- Invariant of a run of error calls from a fresh CLOSED state: while
below the threshold, the breaker stays CLOSED, the consecutive error
count equals the number of calls, and the configuration is unchanged. -/
lemma iterate_error_calls_closed (cb : CircuitBreaker) (e : PyException)
    (t : Rat) (hstate : cb.state = CircuitBreakerState.CLOSED)
    (hcnt : cb.consecutive_error_count = 0)
    (hint : cb.consecutive_counts_clear_interval ≤ 0) :
    ∀ j, j < cb.error_threshold →
      (cb.iterate_error_calls e t j).state = CircuitBreakerState.CLOSED ∧
      (cb.iterate_error_calls e t j).consecutive_error_count = j ∧
      (cb.iterate_error_calls e t j).error_threshold = cb.error_threshold ∧
      (cb.iterate_error_calls e t j).consecutive_counts_clear_interval =
        cb.consecutive_counts_clear_interval ∧
      (cb.iterate_error_calls e t j).reset_timeout = cb.reset_timeout := by
  intro j
  induction j with
  | zero =>
      intro _
      exact ⟨hstate, hcnt, rfl, rfl, rfl⟩
  | succ n ih =>
      intro hlt
      obtain ⟨h1, h2, h3, h4, h5⟩ := ih (Nat.lt_of_succ_lt hlt)
      have hlt' : (cb.iterate_error_calls e t n).consecutive_error_count + 1 <
          (cb.iterate_error_calls e t n).error_threshold := by
        rw [h2, h3]
        exact hlt
      have hint' : (cb.iterate_error_calls e t
          n).consecutive_counts_clear_interval ≤ 0 := by
        rw [h4]
        exact hint
      simp only [CircuitBreaker.iterate_error_calls,
        guard_error_step_lt _ e t h1 hint' hlt']
      exact ⟨h1, by rw [h2], h3, h4, h5⟩

/-- C5: from CLOSED with a zero consecutive error count (and the
periodic clear disabled, the default), fewer than error_threshold
consecutive non-ignored error calls leave the breaker CLOSED, and the
error_threshold-th such call makes the state OPEN with open_until set
to the call's monotonic time plus reset_timeout. -/
theorem closed_opens_after_exactly_error_threshold (cb : CircuitBreaker)
    (e : PyException) (t : Rat) (k : Nat)
    (hk : cb.error_threshold = k) (hk1 : 1 ≤ k)
    (hstate : cb.state = CircuitBreakerState.CLOSED)
    (hcnt : cb.consecutive_error_count = 0)
    (hint : cb.consecutive_counts_clear_interval ≤ 0) :
    (∀ j, j < k →
      (cb.iterate_error_calls e t j).state = CircuitBreakerState.CLOSED) ∧
    (cb.iterate_error_calls e t k).state = CircuitBreakerState.OPEN ∧
    (cb.iterate_error_calls e t k).open_until_time = t + cb.reset_timeout := by
  subst hk
  have haux := iterate_error_calls_closed cb e t hstate hcnt hint
  obtain ⟨m, hm⟩ : ∃ m, cb.error_threshold = m + 1 :=
    ⟨cb.error_threshold - 1, (Nat.succ_pred_eq_of_pos hk1).symm⟩
  obtain ⟨h1, h2, h3, h4, h5⟩ := haux m (by omega)
  have hge : (cb.iterate_error_calls e t m).error_threshold ≤
      (cb.iterate_error_calls e t m).consecutive_error_count + 1 := by
    rw [h2, h3]
    omega
  have hstep := guard_error_step_ge (cb.iterate_error_calls e t m) e t h1
    (by rw [h4]; exact hint) hge
  refine ⟨fun j hj => (haux j hj).1, ?_, ?_⟩ <;>
    rw [hm] <;>
    simp [CircuitBreaker.iterate_error_calls, hstep, h5]

/-- C5 witness: error_threshold 2; after one error the breaker is still
CLOSED, after the second it is OPEN with open_until armed. -/
theorem closed_opens_after_exactly_error_threshold_witness :
    ((CircuitBreaker.init "cb" { error_threshold := 2 } 0).error_threshold =
        2 ∧
      (CircuitBreaker.init "cb" { error_threshold := 2 } 0).state =
        CircuitBreakerState.CLOSED ∧
      (CircuitBreaker.init "cb" { error_threshold := 2 }
          0).consecutive_error_count = 0 ∧
      (CircuitBreaker.init "cb" { error_threshold := 2 }
          0).consecutive_counts_clear_interval ≤ 0) ∧
    ((∀ j, j < 2 →
        ((CircuitBreaker.init "cb" { error_threshold := 2 }
            0).iterate_error_calls { cls := 7 } 5 j).state =
          CircuitBreakerState.CLOSED) ∧
      ((CircuitBreaker.init "cb" { error_threshold := 2 }
          0).iterate_error_calls { cls := 7 } 5 2).state =
        CircuitBreakerState.OPEN ∧
      ((CircuitBreaker.init "cb" { error_threshold := 2 }
          0).iterate_error_calls { cls := 7 } 5 2).open_until_time =
        5 + (CircuitBreaker.init "cb" { error_threshold := 2 }
          0).reset_timeout) :=
  ⟨⟨by decide, by decide, by decide, by decide⟩,
    closed_opens_after_exactly_error_threshold _ { cls := 7 } 5 2
      (by decide) (by decide) (by decide) (by decide) (by decide)⟩

/-! Lemmas for the registry (C7). -/

/-- A failed registry lookup is a failed find. -/
lemma registry_get_none_find (reg : Registry) (name : String)
    (h : reg.get name = none) :
    List.find? (fun p => p.1 = name) reg = none := by
  unfold Registry.get at h
  cases hf : List.find? (fun p => (p.1 = name : Bool)) reg with
  | none => rfl
  | some q => rw [hf] at h; simp at h

/-- Registering under a name absent from the registry appends. -/
lemma registry_register_fresh (reg : Registry) (cb : CircuitBreaker)
    (h : reg.get cb.name = none) :
    reg.register cb = reg ++ [(cb.name, cb)] := by
  have hf := registry_get_none_find reg cb.name h
  have hany : List.any reg (fun p => p.1 = cb.name) = false :=
    List.any_eq_false.mpr (List.find?_eq_none.mp hf)
  simp [Registry.register, hany]

/-- After appending a fresh entry, lookup finds exactly it. -/
lemma registry_get_append (reg : Registry) (name : String)
    (cb : CircuitBreaker) (h : reg.get name = none) :
    Registry.get (reg ++ [(name, cb)]) name = some cb := by
  unfold Registry.get
  rw [List.find?_append, registry_get_none_find reg name h]
  simp

/-- C7: constructing with a name absent from the registry stores the
fresh instance built from the first configuration; a second construction
with the same name returns exactly that stored instance, leaves the
registry unchanged, and ignores the second configuration: the returned
instance's settings are those of the first construction. -/
theorem registry_returns_first_instance (reg : Registry) (name : String)
    (cfg1 cfg2 : CircuitBreakerConfig) (t1 t2 : Rat)
    (h : reg.get name = none) :
    (Registry.meta_call reg name cfg1 t1).1 =
      CircuitBreaker.init name cfg1 t1 ∧
    Registry.meta_call (Registry.meta_call reg name cfg1 t1).2 name
        cfg2 t2 =
      ((Registry.meta_call reg name cfg1 t1).1,
        (Registry.meta_call reg name cfg1 t1).2) ∧
    (Registry.meta_call (Registry.meta_call reg name cfg1 t1).2 name
        cfg2 t2).1.error_threshold = cfg1.error_threshold ∧
    (Registry.meta_call (Registry.meta_call reg name cfg1 t1).2 name
        cfg2 t2).1.success_threshold = cfg1.success_threshold ∧
    (Registry.meta_call (Registry.meta_call reg name cfg1 t1).2 name
        cfg2 t2).1.reset_timeout = cfg1.reset_timeout ∧
    (Registry.meta_call (Registry.meta_call reg name cfg1 t1).2 name
        cfg2 t2).1.half_open_max_concurrency =
      cfg1.half_open_max_concurrency ∧
    (Registry.meta_call (Registry.meta_call reg name cfg1 t1).2 name
        cfg2 t2).1.consecutive_counts_clear_interval =
      cfg1.consecutive_counts_clear_interval := by
  have h1 : Registry.meta_call reg name cfg1 t1 =
      (CircuitBreaker.init name cfg1 t1,
        reg ++ [(name, CircuitBreaker.init name cfg1 t1)]) := by
    have hreg := registry_register_fresh reg
      (CircuitBreaker.init name cfg1 t1) h
    have hname : (CircuitBreaker.init name cfg1 t1).name = name := rfl
    rw [hname] at hreg
    simp [Registry.meta_call, h, hreg]
  have h2 : Registry.meta_call
      (reg ++ [(name, CircuitBreaker.init name cfg1 t1)]) name cfg2 t2 =
      (CircuitBreaker.init name cfg1 t1,
        reg ++ [(name, CircuitBreaker.init name cfg1 t1)]) := by
    simp [Registry.meta_call,
      registry_get_append reg name (CircuitBreaker.init name cfg1 t1) h]
  rw [h1]
  exact ⟨rfl, h2, by rw [h2]; rfl, by rw [h2]; rfl, by rw [h2]; rfl,
    by rw [h2]; rfl, by rw [h2]; rfl⟩

/-- C7 witness: an empty registry, first configuration with
error_threshold 9, second with error_threshold 1: the second call
returns the instance with threshold 9. -/
theorem registry_returns_first_instance_witness :
    Registry.get [] "x" = none ∧
    ((Registry.meta_call [] "x" { error_threshold := 9 } 0).1 =
        CircuitBreaker.init "x" { error_threshold := 9 } 0 ∧
      Registry.meta_call
          (Registry.meta_call [] "x" { error_threshold := 9 } 0).2 "x"
          { error_threshold := 1 } 0 =
        ((Registry.meta_call [] "x" { error_threshold := 9 } 0).1,
          (Registry.meta_call [] "x" { error_threshold := 9 } 0).2) ∧
      (Registry.meta_call
          (Registry.meta_call [] "x" { error_threshold := 9 } 0).2 "x"
          { error_threshold := 1 } 0).1.error_threshold = 9 ∧
      (Registry.meta_call
          (Registry.meta_call [] "x" { error_threshold := 9 } 0).2 "x"
          { error_threshold := 1 } 0).1.success_threshold = 2 ∧
      (Registry.meta_call
          (Registry.meta_call [] "x" { error_threshold := 9 } 0).2 "x"
          { error_threshold := 1 } 0).1.reset_timeout = 60 ∧
      (Registry.meta_call
          (Registry.meta_call [] "x" { error_threshold := 9 } 0).2 "x"
          { error_threshold := 1 } 0).1.half_open_max_concurrency = 1 ∧
      (Registry.meta_call
          (Registry.meta_call [] "x" { error_threshold := 9 } 0).2 "x"
          { error_threshold := 1 }
          0).1.consecutive_counts_clear_interval = 0) :=
  ⟨rfl, registry_returns_first_instance [] "x" { error_threshold := 9 }
    { error_threshold := 1 } 0 0 rfl⟩

/-! Lemmas for the table-name validation (C8). -/

/-- On ASCII code points, the Python identifier head class coincides
with the spec grammar's head class. -/
lemma xid_start_ascii (c : Char) (h : c.toNat < 128) :
    (isXidStartLatin1 c || c.toNat = 95) = isSqlIdentStart c := by
  rw [Bool.eq_iff_iff]
  simp only [isXidStartLatin1, isSqlIdentStart, isAsciiLetter,
    Bool.or_eq_true, Bool.and_eq_true, decide_eq_true_eq]
  omega

/-- On ASCII code points, the Python identifier tail class coincides
with the spec grammar's tail class. -/
lemma xid_continue_ascii (c : Char) (h : c.toNat < 128) :
    isXidContinueLatin1 c = isSqlIdentContinue c := by
  rw [Bool.eq_iff_iff]
  simp only [isXidContinueLatin1, isXidStartLatin1, isSqlIdentContinue,
    isAsciiLetter, Bool.or_eq_true, Bool.and_eq_true, decide_eq_true_eq]
  omega

/-- Congruence for List.all under a pointwise equality on members. -/
lemma all_congr_mem {l : List Char} {f g : Char → Bool}
    (h : ∀ c ∈ l, f c = g c) : l.all f = l.all g := by
  induction l with
  | nil => rfl
  | cons c cs ih =>
      simp [List.all_cons, h c (by simp),
        ih fun d hd => h d (by simp [hd])]

/-- On pure-ASCII strings, the Python identifier test coincides with
the spec's simple SQL identifier grammar. -/
lemma pyIsIdentifier_ascii (s : String)
    (h : ∀ c ∈ s.data, c.toNat < 128) :
    pyIsIdentifier s = isSimpleSqlIdentifier s := by
  unfold pyIsIdentifier isSimpleSqlIdentifier
  cases hd : s.data with
  | nil => rfl
  | cons c cs =>
      have hc : c.toNat < 128 := h c (by rw [hd]; exact List.mem_cons_self c cs)
      have hcs : ∀ d ∈ cs, d.toNat < 128 := fun d hdm =>
        h d (by rw [hd]; exact List.mem_cons_of_mem c hdm)
      show ((isXidStartLatin1 c || c.toNat = 95) &&
          cs.all isXidContinueLatin1) =
        (isSqlIdentStart c && cs.all isSqlIdentContinue)
      rw [xid_start_ascii c hc,
        all_congr_mem fun d hdm => xid_continue_ascii d (hcs d hdm)]

/-- C8 counterexample: the table name consisting of the single letter
e-acute (U+00E9) is outside the ASCII simple SQL identifier grammar,
yet `str.isidentifier` accepts it, so the constructor does not raise. -/
theorem table_name_unicode_accepted_cex :
    isSimpleSqlIdentifier "é" = false ∧
    pyIsIdentifier "é" = true ∧
    PostgresLockBackend.make "postgres" "é" =
      Except.ok { url := "postgres", table_name := "é" } :=
  ⟨by decide, by decide, rfl⟩

/-- C8 amended: construction raises exactly when the table name is not
a Python identifier (Unicode identifier grammar); on pure-ASCII table
names this coincides with the simple SQL identifier grammar of the
claim, but some non-ASCII names outside that grammar are accepted. -/
theorem table_name_validation_amended (url t : String) :
    ((∃ msg, PostgresLockBackend.make url t = Except.error msg) ↔
      pyIsIdentifier t = false) ∧
    ((∀ c ∈ t.data, c.toNat < 128) →
      pyIsIdentifier t = isSimpleSqlIdentifier t) := by
  constructor
  · unfold PostgresLockBackend.make
    by_cases hp : pyIsIdentifier t <;> simp [hp]
  · exact pyIsIdentifier_ascii t

/-- C8 amended witness: the default table name, all-ASCII, where the
two grammars agree and construction succeeds. -/
theorem table_name_validation_amended_witness :
    (∀ c ∈ ("locks" : String).data, c.toNat < 128) ∧
    pyIsIdentifier "locks" = isSimpleSqlIdentifier "locks" :=
  ⟨by decide,
    (table_name_validation_amended "postgres" "locks").2 (by decide)⟩

end Grelmicro
